import Mathlib

/-!
Shallow embedding of the txAdmin startup environment-resolution module and the
Translator (localization) module, with theorems checking the specification's
claims against the code.

String values are modelled as Lean `String`s; a JS string's characters are its
UTF-16 code units, and for the checks embedded here (character-class membership,
prefix/suffix tests, per-character replacement) the code-unit view and the
code-point view agree, since every supplementary character splits into two
surrogates that are both far above the thresholds tested.
-/

namespace TxAdmin

/-! ### String helpers (list-level, so that concrete evaluation reduces) -/

/-- `pre` is a prefix of `s` (embeds JS `String.prototype.startsWith`). -/
def strStartsWith (s pre : String) : Bool :=
  pre.data.isPrefixOf s.data

/-- `suf` is a suffix of `s` (embeds JS `String.prototype.endsWith`). -/
def strEndsWith (s suf : String) : Bool :=
  suf.data.isSuffixOf s.data

/-- JS whitespace for `String.prototype.trim`; after the profile sanitization
filter only characters in `[a-z0-9._-]` remain, so only the ASCII cases can
ever fire there. -/
def isJsWhitespace (c : Char) : Bool :=
  c == ' ' || c == '\t' || c == '\n' || c == '\r' || c.toNat == 0x0B || c.toNat == 0x0C

/-- Embeds JS `String.prototype.trim`: drop leading and trailing whitespace. -/
def jsTrim (s : String) : String :=
  String.mk (((s.data.dropWhile isJsWhitespace).reverse.dropWhile isJsWhitespace).reverse)

/-- Embeds `language.replace(/_/g, '-')`: global single-character replacement. -/
def underscoresToDashes (s : String) : String :=
  String.mk (s.data.map fun c => if c == '_' then '-' else c)

/-! ### Non-ASCII path check (env resolution, `nonASCIIRegex`)

The source tests `/[^\x00-\x80]+/` against `fxServerPath` and `dataPath` and
exits with code 107 on a match. Note the character class covers code units
0x00 through 0x80 inclusive, so the regex matches exactly the strings
containing a code unit strictly above 0x80. -/

/-- Embeds `nonASCIIRegex.test(s)` for `nonASCIIRegex = /[^\x00-\x80]+/`:
true iff some code unit of `s` lies outside the range 0x00–0x80. -/
def nonASCIIRegexTest (s : String) : Bool :=
  s.data.any fun c => 0x80 < c.toNat

/-- Embeds the path charset gate: `some 107` when either path fails the regex
test (the process exits with code 107), `none` when resolution continues. -/
def nonASCIIPathsCheck (fxServerPath dataPath : String) : Option Nat :=
  if nonASCIIRegexTest fxServerPath || nonASCIIRegexTest dataPath then some 107 else none

/-! ### FXServer version gate -/

/-- Output shape of `parseFxserverVersion` (the parser itself lives outside
this fragment; the gate below consumes its result). -/
structure FxsVerParsed where
  valid : Bool
  branch : String
  build : Nat
deriving DecidableEq

/-- Minimum supported FXServer build. -/
def minFXServerVersion : Nat := 5894

/-- Outcome of the version gate: process exit with a code, or resolution
continuing with the resolved `fxServerVersion` and the diagnostics printed. -/
inductive VersionGateOutcome where
  | exited (code : Nat)
  | proceeded (fxServerVersion : Nat) (warnedUnparsed : Bool) (warnedBranch : Bool)
deriving DecidableEq

/-- Embeds the version gate from env resolution:
`fxServerVersion = valid ? build : 99999`; an unparseable version only warns;
a parsed build below `minFXServerVersion` exits with code 102; a parsed build
at or above it continues, warning when the branch is not `master`. -/
def versionGate (p : FxsVerParsed) : VersionGateOutcome :=
  let fxServerVersion := if p.valid then p.build else 99999
  if !p.valid then
    .proceeded fxServerVersion true false
  else if p.build < minFXServerVersion then
    .exited 102
  else
    .proceeded fxServerVersion false (p.branch != "master")

/-! ### Server profile resolution -/

/-- Membership in the allow-list character class `[a-z0-9._-]` with the `i`
(case-insensitive) flag, as used by `replace(/[^a-z0-9._-]/gi, '')`. -/
def profileAllowedChar (c : Char) : Bool :=
  (0x61 ≤ c.toNat && c.toNat ≤ 0x7A) ||
  (0x41 ≤ c.toNat && c.toNat ≤ 0x5A) ||
  (0x30 ≤ c.toNat && c.toNat ≤ 0x39) ||
  c == '.' || c == '_' || c == '-'

/-- Embeds `GetConvar('serverProfile', 'default').replace(/[^a-z0-9._-]/gi, '').trim()`:
remove every character outside the allow-list, then trim. -/
def sanitizeProfile (raw : String) : String :=
  jsTrim (String.mk (raw.data.filter profileAllowedChar))

/-- Embeds the profile gate: sanitized names ending in `.base` exit 113,
empty sanitized names exit 114, otherwise resolution continues with the
profile and `profilePath = dataPath/profile` (the join of an already
normalized `dataPath` with a separator-free profile name). -/
def profileResolve (serverProfileConvar : String) (dataPath : String) :
    Except Nat (String × String) :=
  let profile := sanitizeProfile serverProfileConvar
  if strEndsWith profile ".base" then
    Except.error 113
  else if profile.length == 0 then
    Except.error 114
  else
    Except.ok (profile, dataPath ++ "/" ++ profile)

/-! ### Developer-override environment -/

/-- Output shape of `parseTxDevEnv` (the parser itself lives outside this
fragment). `none` stands for an unset (`undefined`) variable. -/
structure TxDevEnvSrc where
  ENABLED : Bool
  SRC_PATH : Option String
  VITE_URL : Option String
  VERBOSE : Bool
deriving DecidableEq

/-- The resolved `_txDevEnv`: either `Enabled` with both fields populated, or
`Disabled` with both fields explicitly `undefined`. -/
inductive DevEnvResolved where
  | enabled (srcPath viteUrl : String) (verbose : Bool)
  | disabled (verbose : Bool)
deriving DecidableEq

/-- JS truthiness of an optional string: `undefined` and `''` are falsy. -/
def jsTruthy (s : Option String) : Bool :=
  match s with
  | none => false
  | some str => str ≠ ""

/-- Embeds the dev-env resolution: if enabled but `SRC_PATH` or `VITE_URL` is
falsy, exit 108; if enabled with both truthy, produce `enabled` carrying both
values; if disabled, produce `disabled` with both fields undefined. -/
def devEnvResolve (src : TxDevEnvSrc) : Except Nat DevEnvResolved :=
  if src.ENABLED then
    if !(jsTruthy src.SRC_PATH) || !(jsTruthy src.VITE_URL) then
      Except.error 108
    else
      Except.ok (.enabled (src.SRC_PATH.getD "") (src.VITE_URL.getD "") src.VERBOSE)
  else
    Except.ok (.disabled src.VERBOSE)

/-! ### Hosting-mode detection -/

/-- The host facts the hosting-mode flags depend on. -/
structure HostEnv where
  isWindows : Bool
  /-- `process.env.TXADMIN_ENABLE` (`none` stands for unset). -/
  txadminEnableVar : Option String
  /-- Whether `dataPath/txAdminZapConfig.json` exists on disk. -/
  zapCfgFileExists : Bool
deriving DecidableEq

/-- Embeds `isPterodactyl = !isWindows && process.env?.TXADMIN_ENABLE === '1'`. -/
def isPterodactyl (e : HostEnv) : Bool :=
  !e.isWindows && e.txadminEnableVar == some "1"

/-- Embeds `isZapHosting`: set to `!isPterodactyl` inside the branch taken
when the ZAP descriptor file exists, and to `false` otherwise. -/
def isZapHosting (e : HostEnv) : Bool :=
  if e.zapCfgFileExists then !(isPterodactyl e) else false

/-! ### ZAP-Hosting descriptor processing

`txAdminZapConfig.json` is parsed as JSON; any exception inside the `try`
block (parse failure, access through a missing `defaults` object, customer
validation failure) is caught and the process exits with code 109. On
success, after all assignments, the file is deleted unless the dev env is
enabled. JSON field values are modelled as `JVal` (only string-ness is ever
inspected), and an absent or falsy field as `Option.none`. -/

/-- A JSON field value as far as the code inspects it: a string, or anything
else (including `undefined` for an absent field). -/
inductive JVal where
  | str (s : String)
  | other
deriving DecidableEq

/-- The raw `zapCfgData.customer` record before validation. -/
structure RawCustomer where
  name : JVal
  password_hash : JVal
deriving DecidableEq

/-- The validated `defaultMasterAccount` value. -/
structure MasterAccount where
  name : String
  password_hash : String
deriving DecidableEq

/-- The seven fields copied verbatim from `zapCfgData.defaults` into
`deployerDefaults`. -/
structure ZapDefaults where
  license : JVal
  maxClients : JVal
  mysqlHost : JVal
  mysqlPort : JVal
  mysqlUser : JVal
  mysqlPassword : JVal
  mysqlDatabase : JVal
deriving DecidableEq

/-- The parsed `zapCfgData` object; `none` in `defaults` means the field is
absent (so `zapCfgData.defaults.license` throws), `none` in `customer` means
the field is absent or falsy (the `if (zapCfgData.customer)` guard). -/
structure ZapCfgData where
  interface : Option String
  fxServerPort : Option Int
  txAdminPort : Option Int
  loginPageLogo : Option String
  defaults : Option ZapDefaults
  customer : Option RawCustomer
deriving DecidableEq

/-- Embeds the inline `customer` validation: name must be a string of length
at least 3, password hash a string starting with `$2y$`; any failure throws
with the corresponding message. -/
def validateCustomer (c : RawCustomer) : Except String MasterAccount :=
  match c.name with
  | JVal.other => Except.error "customer.name is not a string."
  | JVal.str n =>
    if n.length < 3 then Except.error "customer.name too short."
    else
      match c.password_hash with
      | JVal.other => Except.error "customer.password_hash is not a string."
      | JVal.str h =>
        if strStartsWith h "$2y$" then Except.ok ⟨n, h⟩
        else Except.error "customer.password_hash is not a bcrypt hash."

/-- The claim-side validity predicate: `customer.name` is a string of length
at least 3 and `customer.password_hash` is a string starting with `$2y$`. -/
def customerValid (c : RawCustomer) : Bool :=
  match c.name, c.password_hash with
  | JVal.str n, JVal.str h => 3 ≤ n.length && strStartsWith h "$2y$"
  | _, _ => false

/-- The state resolved by the ZAP branch, plus whether the descriptor file
was deleted from disk. -/
structure ZapOutcome where
  forceInterface : Option String
  forceFXServerPort : Option Int
  txAdminPort : Option Int
  loginPageLogo : Option String
  defaultMasterAccount : Option MasterAccount
  deployerDefaults : ZapDefaults
  fileDeleted : Bool
deriving DecidableEq

/-- Embeds the branch taken when the ZAP descriptor file exists. The argument
is `none` when `JSON.parse` throws. An error result `(109, msg)` is the
caught exception message followed by `process.exit(109)`; an ok result holds
the assigned state, with `fileDeleted = !devEnabled` (the
`if (!_txDevEnv.ENABLED) fs.unlinkSync(zapCfgFile)` line). -/
def zapBranch (parsed : Option ZapCfgData) (devEnabled : Bool) :
    Except (Nat × String) ZapOutcome :=
  match parsed with
  | none => Except.error (109, "JSON.parse failed")
  | some d =>
    match d.defaults with
    | none => Except.error (109, "Cannot read properties of undefined")
    | some defs =>
      match d.customer with
      | none =>
        Except.ok ⟨d.interface, d.fxServerPort, d.txAdminPort, d.loginPageLogo,
          none, defs, !devEnabled⟩
      | some c =>
        match validateCustomer c with
        | Except.error msg => Except.error (109, msg)
        | Except.ok acct =>
          Except.ok ⟨d.interface, d.fxServerPort, d.txAdminPort, d.loginPageLogo,
            some acct, defs, !devEnabled⟩

/-! ### Translator module

The phrase catalog is a keyed association list. `Intl.getCanonicalLocales`
and the built-in `localeMap` live outside this fragment, so the state
transition is parameterized over them: `canonicalize lang = none` models the
call throwing, `localeMap lang = none` models `localeMap[lang]` not being an
object. `customFile = none` models reading or parsing `locale.json`
failing. -/

/-- A phrase catalog: translation key to phrase template. -/
abbrev Phrases := List (String × String)

/-- Substitutions passed to a translation call. -/
abbrev Subst := List (String × String)

/-- The mutable state of a `Translator` instance: the canonical locale tag
and the polyglot engine (`none` until the first successful load). -/
structure TranslatorState where
  canonical : String
  polyglot : Option Phrases
deriving DecidableEq

/-- Embeds `getLanguagePhrases`: a known language returns its built-in
catalog; `custom` reads `locale.json` (throwing on failure); anything else
throws `Language not found`. -/
def getLanguagePhrases (localeMap : String → Option Phrases)
    (customFile : Option Phrases) (lang : String) : Except String Phrases :=
  match localeMap lang with
  | some p => Except.ok p
  | none =>
    if lang == "custom" then
      match customFile with
      | some p => Except.ok p
      | none => Except.error "Failed to load locale.json"
    else
      Except.error ("Language " ++ lang ++ " not found.")

/-- Embeds `setupTranslator`: first `canonical` is recomputed from the
configured language (falling back to `en-GB` when `Intl.getCanonicalLocales`
throws), then the catalog load is attempted; on success the polyglot engine
is replaced, on failure the engine is left as it was — fatally
(`fatalError.Translator`, the returned flag) when `isFirstTime`, with only a
log otherwise. -/
def setupTranslator (canonicalize : String → Option String)
    (localeMap : String → Option Phrases) (customFile : Option Phrases)
    (language : String) (isFirstTime : Bool) (st : TranslatorState) :
    TranslatorState × Bool :=
  let canonical :=
    match canonicalize (underscoresToDashes language) with
    | some c => c
    | none => "en-GB"
  match getLanguagePhrases localeMap customFile language with
  | Except.ok phrases => ({ canonical := canonical, polyglot := some phrases }, false)
  | Except.error _ => ({ canonical := canonical, polyglot := st.polyglot }, isFirstTime)

/-- One call into the underlying engine `polyglot.t`: the messages it logged
and either a returned string or a raised exception. -/
structure EngineCall where
  logs : List String
  result : Except String String

/-- Embeds `Translator.t`: throws `polyglot not yet loaded` when no engine is
loaded; otherwise calls the engine, and if the engine raises, logs an error
naming the key and returns the key. The result pairs the error messages
logged with either the returned string or the exception escaping `t`. -/
def Translator.t (engine : Phrases → String → Subst → EngineCall)
    (st : TranslatorState) (key : String) (subst : Subst) :
    List String × Except String String :=
  match st.polyglot with
  | none => ([], Except.error "polyglot not yet loaded")
  | some ph =>
    let c := engine ph key subst
    match c.result with
    | Except.ok s => (c.logs, Except.ok s)
    | Except.error _ =>
      (c.logs ++ ["Error performing a translation with key " ++ key], Except.ok key)

/-- Interpolation of substitutions into a phrase template (each occurrence of
`%\x7bname\x7d` replaced by the substitution value). -/
def interpolate (template : String) (subst : Subst) : String :=
  subst.foldl (fun acc kv => acc.replace ("%\x7b" ++ kv.1 ++ "\x7d") kv.2) template

/-- Modelled from the spec: the node-polyglot engine built by
`setupTranslator` with `allowMissing: false` and the `onMissingKey` handler —
looks the key up in the active catalog; when present, interpolates the
substitutions into the template; when absent, invokes the missing-key policy,
which logs exactly one error identifying the key and returns the raw key
string. It never raises. -/
def polyglotEngine (phrases : Phrases) (key : String) (subst : Subst) : EngineCall :=
  match phrases.lookup key with
  | some template => ⟨[], Except.ok (interpolate template subst)⟩
  | none =>
    ⟨["Missing key \x27" ++ key ++ "\x27 from translation file."], Except.ok key⟩

/-! ## Theorems for the claims -/

/-- C1, counterexample: with the descriptor file present and the Pterodactyl
marker set (Linux, `TXADMIN_ENABLE = '1'`), the code resolves
`isPterodactyl = true` and `isZapHosting = false` — the descriptor file does
not take priority, refuting the claim that the resolved mode is ManagedZap. -/
theorem C1_counterexample :
    isPterodactyl ⟨false, some "1", true⟩ = true ∧
    isZapHosting ⟨false, some "1", true⟩ = false := by
  decide

/-- C1 (amended): hosting-mode detection picks exactly one mode —
`isZapHosting` and `isPterodactyl` are never simultaneously true — and when
both the managed-hosting descriptor file exists and the Pterodactyl marker is
present, the Pterodactyl marker takes priority: the resolved mode has
`isPterodactyl` true and `isZapHosting` false. -/
theorem C1_hosting_mode_priority (e : HostEnv) :
    (¬(isZapHosting e = true ∧ isPterodactyl e = true)) ∧
    (e.zapCfgFileExists = true → isPterodactyl e = true →
      isZapHosting e = false ∧ isPterodactyl e = true) := by
  constructor
  · rintro ⟨hz, hp⟩
    simp [isZapHosting, hp] at hz
  · intro hf hp
    simp [isZapHosting, hf, hp]

/-- C1 witness: the amended priority at the concrete environment of the
counterexample. -/
theorem C1_hosting_mode_priority_witness :
    isZapHosting ⟨false, some "1", true⟩ = false ∧
    isPterodactyl ⟨false, some "1", true⟩ = true :=
  (C1_hosting_mode_priority ⟨false, some "1", true⟩).2 rfl rfl

/-- C2: the path charset gate evaluated at the failing input `"C:/\x80"`
(fxServerPath whose last character is U+0080): the path contains a code point
above 0x7F — a non-ASCII character, which the code's own comment and error
message say must be rejected with exit 107 — yet the check passes
(`none`, resolution continues), because the regex character class
`[^\x00-\x80]` includes 0x80 itself. -/
theorem C2_nonascii_gate_bug :
    (∃ c ∈ (String.mk [Char.ofNat 0x43, Char.ofNat 0x3A, Char.ofNat 0x2F,
        Char.ofNat 0x80]).data, 0x7F < c.toNat) ∧
    nonASCIIPathsCheck
      (String.mk [Char.ofNat 0x43, Char.ofNat 0x3A, Char.ofNat 0x2F, Char.ofNat 0x80])
      "C:/txData" = none := by
  constructor
  · exact ⟨Char.ofNat 0x80, by decide, by decide⟩
  · rfl

/-- C3: a version string parsing to a build below 5894 exits with code 102; a
build at or above 5894 continues with `fxServerVersion` equal to the parsed
build and no unparsed-warning; an unparseable version string continues
non-fatally with the sentinel 99999 and only the diagnostic warning. -/
theorem C3_version_gate (p : FxsVerParsed) :
    (p.valid = true → p.build < minFXServerVersion →
      versionGate p = VersionGateOutcome.exited 102) ∧
    (p.valid = true → minFXServerVersion ≤ p.build →
      ∃ warnedBranch,
        versionGate p = VersionGateOutcome.proceeded p.build false warnedBranch) ∧
    (p.valid = false →
      versionGate p = VersionGateOutcome.proceeded 99999 true false) := by
  refine ⟨fun hv hlt => ?_, fun hv hge => ?_, fun hv => ?_⟩
  · simp [versionGate, hv, hlt]
  · exact ⟨p.branch != "master", by simp [versionGate, hv, Nat.not_lt.mpr hge]⟩
  · simp [versionGate, hv]

/-- C3 witness: the gate at builds 5893, 5894, and at an unparseable
version. -/
theorem C3_version_gate_witness :
    versionGate ⟨true, "master", 5893⟩ = VersionGateOutcome.exited 102 ∧
    (∃ warnedBranch,
      versionGate ⟨true, "master", 5894⟩ =
        VersionGateOutcome.proceeded 5894 false warnedBranch) ∧
    versionGate ⟨false, "master", 0⟩ =
      VersionGateOutcome.proceeded 99999 true false :=
  ⟨(C3_version_gate ⟨true, "master", 5893⟩).1 rfl (by decide),
   (C3_version_gate ⟨true, "master", 5894⟩).2.1 rfl (by decide),
   (C3_version_gate ⟨false, "master", 0⟩).2.2 rfl⟩

/-- C4, counterexample: reconfiguring from language `en` (canonical tag `en`,
catalog loaded) to `custom` while the custom catalog is unreadable keeps the
catalog but updates the canonical locale tag from `en` to `custom`
(`Intl.getCanonicalLocales` canonicalizes the structurally valid tag `custom`
to itself, modelled by the identity canonicalizer) — so the entire previous
engine state is not retained, refuting the claim. -/
theorem C4_counterexample :
    (setupTranslator (fun s => some s)
        (fun l => if l == "en" then some [("k", "v")] else none) none
        "custom" false ⟨"en", some [("k", "v")]⟩).1
      = ⟨"custom", some [("k", "v")]⟩ ∧ ("custom" : String) ≠ "en" :=
  ⟨rfl, by decide⟩

/-- C4 (amended): for every reconfiguration (`isFirstTime = false`) in which
loading the phrase catalog fails, the previous catalog (`#polyglot`) is
retained unchanged, the failure is non-fatal (only logged), and `t` behaves
exactly as before the reconfiguration; the canonical locale tag, however, is
recomputed from the newly configured language before the load is attempted
and is not rolled back on failure. -/
theorem C4_reconfig_keeps_catalog (canonicalize : String → Option String)
    (localeMap : String → Option Phrases) (customFile : Option Phrases)
    (language : String) (st : TranslatorState)
    (hfail : ∃ msg,
      getLanguagePhrases localeMap customFile language = Except.error msg) :
    (setupTranslator canonicalize localeMap customFile language false st).1.polyglot
        = st.polyglot ∧
    (setupTranslator canonicalize localeMap customFile language false st).2 = false ∧
    (setupTranslator canonicalize localeMap customFile language false st).1.canonical
      = (match canonicalize (underscoresToDashes language) with
          | some c => c
          | none => "en-GB") ∧
    (∀ engine key subst,
      Translator.t engine
          (setupTranslator canonicalize localeMap customFile language false st).1
          key subst
        = Translator.t engine st key subst) := by
  obtain ⟨msg, hm⟩ := hfail
  refine ⟨by simp [setupTranslator, hm], by simp [setupTranslator, hm],
    by simp [setupTranslator, hm], fun engine key subst => ?_⟩
  simp only [setupTranslator, hm]
  cases hs : st.polyglot <;> simp [Translator.t, hs]

/-- C4 witness: the amended statement at a concrete failing reconfiguration
(unknown language `pt`, previous catalog loaded). -/
theorem C4_reconfig_keeps_catalog_witness :
    (setupTranslator (fun s => some s) (fun _ => none) none "pt" false
        ⟨"en", some [("k", "v")]⟩).1.polyglot = some [("k", "v")] :=
  (C4_reconfig_keeps_catalog (fun s => some s) (fun _ => none) none "pt"
    ⟨"en", some [("k", "v")]⟩ ⟨"Language pt not found.", rfl⟩).1

/-- C5: for every key absent from the active catalog, `t` returns the literal
key string, produces exactly one logged error identifying the key, and does
not raise past the translate boundary. -/
theorem C5_missing_key (st : TranslatorState) (ph : Phrases) (key : String)
    (subst : Subst) (hp : st.polyglot = some ph) (hmiss : ph.lookup key = none) :
    Translator.t polyglotEngine st key subst =
      (["Missing key \x27" ++ key ++ "\x27 from translation file."],
        Except.ok key) := by
  simp [Translator.t, hp, polyglotEngine, hmiss]

/-- C5 witness: `t` on the key `missing.key` absent from a loaded catalog. -/
theorem C5_missing_key_witness :
    Translator.t polyglotEngine ⟨"en-GB", some [("k", "v")]⟩ "missing.key" [] =
      (["Missing key \x27missing.key\x27 from translation file."],
        Except.ok "missing.key") :=
  C5_missing_key ⟨"en-GB", some [("k", "v")]⟩ [("k", "v")] "missing.key" [] rfl rfl

/-- Helper: `validateCustomer` succeeds with exactly the given name and hash
when the name is long enough and the hash is bcrypt-shaped. -/
lemma validateCustomer_ok (n h : String) (hn : 3 ≤ n.length)
    (hh : strStartsWith h "$2y$" = true) :
    validateCustomer ⟨JVal.str n, JVal.str h⟩ = Except.ok ⟨n, h⟩ := by
  simp [validateCustomer, Nat.not_lt.mpr hn, hh]

/-- Helper: an invalid customer record makes `validateCustomer` throw. -/
lemma validateCustomer_err (c : RawCustomer) (hc : customerValid c = false) :
    ∃ msg, validateCustomer c = Except.error msg := by
  obtain ⟨name, hash⟩ := c
  cases name with
  | other => exact ⟨"customer.name is not a string.", rfl⟩
  | str n =>
    by_cases hl : n.length < 3
    · cases hash with
      | other => exact ⟨"customer.name too short.", by simp [validateCustomer, hl]⟩
      | str h => exact ⟨"customer.name too short.", by simp [validateCustomer, hl]⟩
    · cases hash with
      | other =>
        exact ⟨"customer.password_hash is not a string.", by simp [validateCustomer, hl]⟩
      | str h =>
        have h3 : 3 ≤ n.length := Nat.not_lt.mp hl
        have hs : strStartsWith h "$2y$" = false := by
          simpa [customerValid, h3] using hc
        exact ⟨"customer.password_hash is not a bcrypt hash.",
          by simp [validateCustomer, hl, hs]⟩

/-- C6: for a descriptor with a customer record (and a well-formed `defaults`
object), an invalid record — name not a string of length at least 3, or
password hash not a string starting with `$2y$` — rejects the whole
descriptor with a fatal descriptive error and exit code 109; a record that
passes populates `defaultMasterAccount` with exactly that name and hash. -/
theorem C6_zap_customer (d : ZapCfgData) (dev : Bool) (c : RawCustomer)
    (defs : ZapDefaults) (hdef : d.defaults = some defs) (hc : d.customer = some c) :
    (customerValid c = false →
      ∃ msg, zapBranch (some d) dev = Except.error (109, msg)) ∧
    (∀ n h, c.name = JVal.str n → c.password_hash = JVal.str h →
      3 ≤ n.length → strStartsWith h "$2y$" = true →
      ∃ out, zapBranch (some d) dev = Except.ok out ∧
        out.defaultMasterAccount = some ⟨n, h⟩) := by
  constructor
  · intro hv
    obtain ⟨msg, hmsg⟩ := validateCustomer_err c hv
    exact ⟨msg, by simp [zapBranch, hdef, hc, hmsg]⟩
  · intro n h hn hh h3 hs
    obtain ⟨cn, ch⟩ := c
    simp only at hn hh
    subst hn
    subst hh
    exact ⟨⟨d.interface, d.fxServerPort, d.txAdminPort, d.loginPageLogo,
        some ⟨n, h⟩, defs, !dev⟩,
      by simp [zapBranch, hdef, hc, validateCustomer_ok n h h3 hs], rfl⟩

/-- C6 witness: a customer whose hash does not start with `$2y$` exits with
code 109; a valid customer populates `defaultMasterAccount`. -/
theorem C6_zap_customer_witness :
    (∃ msg, zapBranch (some ⟨none, none, none, none,
        some ⟨JVal.other, JVal.other, JVal.other, JVal.other, JVal.other,
          JVal.other, JVal.other⟩,
        some ⟨JVal.str "abc", JVal.str "plain"⟩⟩) false
      = Except.error (109, msg)) ∧
    (∃ out, zapBranch (some ⟨none, none, none, none,
        some ⟨JVal.other, JVal.other, JVal.other, JVal.other, JVal.other,
          JVal.other, JVal.other⟩,
        some ⟨JVal.str "abc", JVal.str "$2y$x"⟩⟩) false
      = Except.ok out ∧ out.defaultMasterAccount = some ⟨"abc", "$2y$x"⟩) :=
  ⟨(C6_zap_customer
      ⟨none, none, none, none,
        some ⟨JVal.other, JVal.other, JVal.other, JVal.other, JVal.other,
          JVal.other, JVal.other⟩,
        some ⟨JVal.str "abc", JVal.str "plain"⟩⟩ false
      ⟨JVal.str "abc", JVal.str "plain"⟩
      ⟨JVal.other, JVal.other, JVal.other, JVal.other, JVal.other,
        JVal.other, JVal.other⟩ rfl rfl).1 (by decide),
   (C6_zap_customer
      ⟨none, none, none, none,
        some ⟨JVal.other, JVal.other, JVal.other, JVal.other, JVal.other,
          JVal.other, JVal.other⟩,
        some ⟨JVal.str "abc", JVal.str "$2y$x"⟩⟩ false
      ⟨JVal.str "abc", JVal.str "$2y$x"⟩
      ⟨JVal.other, JVal.other, JVal.other, JVal.other, JVal.other,
        JVal.other, JVal.other⟩ rfl rfl).2
      "abc" "$2y$x" rfl rfl (by decide) (by decide)⟩

/-- Helper: the profile gate succeeds when the sanitized name neither ends in
`.base` nor is empty. -/
lemma profileResolve_ok (raw dataPath : String)
    (hb : strEndsWith (sanitizeProfile raw) ".base" = false)
    (hne : sanitizeProfile raw ≠ "") :
    profileResolve raw dataPath
      = Except.ok (sanitizeProfile raw, dataPath ++ "/" ++ sanitizeProfile raw) := by
  have hlen : (sanitizeProfile raw).length ≠ 0 := fun h0 =>
    hne (String.ext (List.eq_nil_of_length_eq_zero h0))
  simp [profileResolve, hb, hlen]

/-- C7: the profile value is sanitized to the allow-list `[a-z0-9._-]`
(case-insensitive); `default` is accepted with
`profilePath = dataPath/default`; a name sanitizing to the empty string exits
with code 114; a name whose sanitized form ends in `.base` exits with code
113; and `My Server!` is sanitized to `MyServer` (disallowed characters
removed) rather than accepted verbatim. -/
theorem C7_profile (dataPath raw : String) :
    profileResolve "default" dataPath
      = Except.ok ("default", dataPath ++ "/" ++ "default") ∧
    (sanitizeProfile raw = "" → profileResolve raw dataPath = Except.error 114) ∧
    (strEndsWith (sanitizeProfile raw) ".base" = true →
      profileResolve raw dataPath = Except.error 113) ∧
    sanitizeProfile "My Server!" = "MyServer" := by
  refine ⟨?_, fun he => ?_, fun hb => ?_, by decide⟩
  · have h := profileResolve_ok "default" dataPath (by decide) (by decide)
    rwa [show sanitizeProfile "default" = "default" by decide] at h
  · simp only [profileResolve]
    rw [he]
    rfl
  · simp [profileResolve, hb]

/-- C7 witness: `default`, the all-disallowed name `!!!`, a `.base` name, and
the sanitized form of `My Server!`. -/
theorem C7_profile_witness :
    profileResolve "default" "C:/txData"
      = Except.ok ("default", "C:/txData" ++ "/" ++ "default") ∧
    profileResolve "!!!" "C:/txData" = Except.error 114 ∧
    profileResolve "myserver.base" "C:/txData" = Except.error 113 :=
  ⟨(C7_profile "C:/txData" "!!!").1,
   (C7_profile "C:/txData" "!!!").2.1 (by decide),
   (C7_profile "C:/txData" "myserver.base").2.2.1 (by decide)⟩

/-- C8: a developer override that is enabled with exactly one of `SRC_PATH`
and `VITE_URL` missing or empty exits with code 108; enabled with both
non-empty resolves to `enabled` carrying both values; disabled resolves to
`disabled` with both fields undefined. -/
theorem C8_dev_env (src : TxDevEnvSrc) :
    (src.ENABLED = true →
      ((jsTruthy src.SRC_PATH = false ∧ jsTruthy src.VITE_URL = true) ∨
       (jsTruthy src.SRC_PATH = true ∧ jsTruthy src.VITE_URL = false)) →
      devEnvResolve src = Except.error 108) ∧
    (src.ENABLED = true → ∀ sp vu, src.SRC_PATH = some sp → src.VITE_URL = some vu →
      sp ≠ "" → vu ≠ "" →
      devEnvResolve src = Except.ok (DevEnvResolved.enabled sp vu src.VERBOSE)) ∧
    (src.ENABLED = false →
      devEnvResolve src = Except.ok (DevEnvResolved.disabled src.VERBOSE)) := by
  refine ⟨fun he hone => ?_, fun he sp vu hsp hvu hspne hvune => ?_, fun he => ?_⟩
  · rcases hone with ⟨h1, _⟩ | ⟨_, h2⟩ <;> simp [devEnvResolve, he, *]
  · simp [devEnvResolve, he, hsp, hvu, jsTruthy, hspne, hvune]
  · simp [devEnvResolve, he]

/-- C8 witness: only `SRC_PATH` set exits 108; both set resolves `enabled`
with both values; disabled resolves `disabled`. -/
theorem C8_dev_env_witness :
    devEnvResolve ⟨true, some "/dev/src", none, false⟩ = Except.error 108 ∧
    devEnvResolve ⟨true, some "/dev/src", some "http://localhost:5173", true⟩
      = Except.ok (DevEnvResolved.enabled "/dev/src" "http://localhost:5173" true) ∧
    devEnvResolve ⟨false, none, none, false⟩
      = Except.ok (DevEnvResolved.disabled false) :=
  ⟨(C8_dev_env ⟨true, some "/dev/src", none, false⟩).1 rfl
      (Or.inr ⟨by decide, by decide⟩),
   (C8_dev_env ⟨true, some "/dev/src", some "http://localhost:5173", true⟩).2.1
      rfl "/dev/src" "http://localhost:5173" rfl rfl (by decide) (by decide),
   (C8_dev_env ⟨false, none, none, false⟩).2.2 rfl⟩

/-- C9: on every successful parse and validation of the ZAP descriptor, the
file is deleted iff the developer override is not enabled, and every other
piece of resolved state is unaffected by the deletion decision (flipping the
dev flag yields the same outcome except for `fileDeleted`). -/
theorem C9_zap_file_deletion (d : ZapCfgData) (dev : Bool) (out : ZapOutcome)
    (h : zapBranch (some d) dev = Except.ok out) :
    out.fileDeleted = !dev ∧
    ∃ out2, zapBranch (some d) (!dev) = Except.ok out2 ∧
      out2.fileDeleted = dev ∧
      out2.forceInterface = out.forceInterface ∧
      out2.forceFXServerPort = out.forceFXServerPort ∧
      out2.txAdminPort = out.txAdminPort ∧
      out2.loginPageLogo = out.loginPageLogo ∧
      out2.defaultMasterAccount = out.defaultMasterAccount ∧
      out2.deployerDefaults = out.deployerDefaults := by
  cases hdef : d.defaults with
  | none => simp [zapBranch, hdef] at h
  | some defs =>
    cases hc : d.customer with
    | none =>
      simp only [zapBranch, hdef, hc] at h
      injection h with h
      subst h
      exact ⟨rfl,
        ⟨d.interface, d.fxServerPort, d.txAdminPort, d.loginPageLogo,
          none, defs, !(!dev)⟩,
        by simp [zapBranch, hdef, hc], by simp, rfl, rfl, rfl, rfl, rfl, rfl⟩
    | some c =>
      cases hval : validateCustomer c with
      | error msg => simp [zapBranch, hdef, hc, hval] at h
      | ok acct =>
        simp only [zapBranch, hdef, hc, hval] at h
        injection h with h
        subst h
        exact ⟨rfl,
          ⟨d.interface, d.fxServerPort, d.txAdminPort, d.loginPageLogo,
            some acct, defs, !(!dev)⟩,
          by simp [zapBranch, hdef, hc, hval], by simp, rfl, rfl, rfl, rfl, rfl, rfl⟩

/-- C9 witness: a descriptor with no customer record, processed outside dev
mode, has its file deleted. -/
theorem C9_zap_file_deletion_witness :
    ({ forceInterface := none, forceFXServerPort := none, txAdminPort := none,
       loginPageLogo := none, defaultMasterAccount := none,
       deployerDefaults := ⟨JVal.other, JVal.other, JVal.other, JVal.other,
         JVal.other, JVal.other, JVal.other⟩,
       fileDeleted := true } : ZapOutcome).fileDeleted = !false :=
  (C9_zap_file_deletion
    ⟨none, none, none, none,
      some ⟨JVal.other, JVal.other, JVal.other, JVal.other, JVal.other,
        JVal.other, JVal.other⟩, none⟩ false
    ⟨none, none, none, none, none,
      ⟨JVal.other, JVal.other, JVal.other, JVal.other, JVal.other,
        JVal.other, JVal.other⟩, true⟩ rfl).1

/-- Helper: `t` on a state with a loaded engine always returns a string,
whatever the engine does. -/
lemma t_ok_of_loaded (engine : Phrases → String → Subst → EngineCall)
    (st : TranslatorState) (ph : Phrases) (key : String) (subst : Subst)
    (hp : st.polyglot = some ph) :
    ∃ logs s, Translator.t engine st key subst = (logs, Except.ok s) := by
  simp only [Translator.t, hp]
  cases hres : (engine ph key subst).result with
  | ok s => exact ⟨(engine ph key subst).logs, s, by simp [hres]⟩
  | error e =>
    exact ⟨(engine ph key subst).logs
        ++ ["Error performing a translation with key " ++ key], key, by simp [hres]⟩

/-- C10: `t` raises `polyglot not yet loaded` exactly when the engine has
never been loaded (`#polyglot` null), and in no other state: with a loaded
engine, and in particular after any successful `setupTranslator`, `t` returns
a string for every key and substitution, never raising — whatever the
underlying engine call does. -/
theorem C10_t_raises_iff_unloaded (engine : Phrases → String → Subst → EngineCall)
    (st : TranslatorState) (key : String) (subst : Subst) :
    (st.polyglot = none →
      Translator.t engine st key subst = ([], Except.error "polyglot not yet loaded")) ∧
    (∀ ph, st.polyglot = some ph →
      ∃ logs s, Translator.t engine st key subst = (logs, Except.ok s)) ∧
    (∀ canonicalize localeMap customFile language isFirstTime st0 phrases,
      getLanguagePhrases localeMap customFile language = Except.ok phrases →
      ∃ logs s,
        Translator.t engine
            (setupTranslator canonicalize localeMap customFile language isFirstTime st0).1
            key subst
          = (logs, Except.ok s)) := by
  refine ⟨fun hn => by simp [Translator.t, hn],
    fun ph hp => t_ok_of_loaded engine st ph key subst hp,
    fun canonicalize localeMap customFile language isFirstTime st0 phrases hok => ?_⟩
  exact t_ok_of_loaded engine _ phrases key subst (by simp [setupTranslator, hok])

/-- C10 witness: `t` raises on the never-loaded state and returns a string
after a successful load. -/
theorem C10_t_raises_iff_unloaded_witness :
    Translator.t polyglotEngine ⟨"en-GB", none⟩ "general.hi" [] =
      ([], Except.error "polyglot not yet loaded") ∧
    (∃ logs s,
      Translator.t polyglotEngine ⟨"en-GB", some [("k", "v")]⟩ "k" []
        = (logs, Except.ok s)) :=
  ⟨(C10_t_raises_iff_unloaded polyglotEngine ⟨"en-GB", none⟩ "general.hi" []).1 rfl,
   (C10_t_raises_iff_unloaded polyglotEngine ⟨"en-GB", some [("k", "v")]⟩ "k" []).2.1
      [("k", "v")] rfl⟩

end TxAdmin
